import Mathlib

/-!
Verification development for the subscription billing backend
(`app/` : idempotent command gate, subscription engine, webhook
reconciliation engine).  The Python code is shallowly embedded: dicts
and JSON payloads become an inductive `Json` type, SQLAlchemy rows
become structures, the database session becomes explicit state passing,
and commit/rollback semantics are modelled explicitly (uncommitted work
in a request that ends without `commit` is discarded, matching
`async with SessionLocal()` in `app/core/deps.py`).
-/

namespace Billing

/-! ### JSON values (`dict` payloads)

`Json.obj` keeps entries in insertion order, like a Python `dict`.
Numbers are modelled as integers (the payloads hashed by the gate
contain strings, integers and booleans).  Mutual inductives are used so
that every function below is structurally recursive and computable by
the kernel. -/

mutual
inductive Json where
  | null : Json
  | bool (b : Bool) : Json
  | num (n : Int) : Json
  | str (s : String) : Json
  | arr (elems : JArr) : Json
  | obj (entries : JObj) : Json
deriving DecidableEq

inductive JArr where
  | nil : JArr
  | cons (hd : Json) (tl : JArr) : JArr
deriving DecidableEq

inductive JObj where
  | nil : JObj
  | cons (key : String) (val : Json) (tl : JObj) : JObj
deriving DecidableEq
end

/-- Lexicographic comparison of character lists by code point, the
order `json.dumps(..., sort_keys=True)` sorts object keys with. -/
def strLeB : List Char → List Char → Bool
  | [], _ => true
  | _ :: _, [] => false
  | a :: as, b :: bs => if a < b then true else if b < a then false else strLeB as bs

/-- Key order on strings (code-point lexicographic). -/
def keyLE (a b : String) : Bool := strLeB a.data b.data

/-- Model of `",".join`, with the compact separator used by
`json.dumps(..., separators=(",", ":"))`. -/
def joinComma : List String → String
  | [] => ""
  | [s] => s
  | s :: rest => s ++ "," ++ joinComma rest

/-- JSON string literal rendering (quoting; escaping of exotic
characters is irrelevant to the hashed payloads and elided). -/
def jstr (s : String) : String := "\"" ++ s ++ "\""

/-- Order on rendered object entries: compare keys only, as
`json.dumps(..., sort_keys=True)` does. -/
def entryLE (a b : String × String) : Prop := keyLE a.1 b.1 = true

instance : DecidableRel entryLE := fun a b => inferInstanceAs (Decidable (keyLE a.1 b.1 = true))

theorem strLeB_total : ∀ a b, strLeB a b = true ∨ strLeB b a = true
  | [], _ => Or.inl rfl
  | _ :: _, [] => Or.inr rfl
  | a :: as, b :: bs => by
    rcases lt_trichotomy a b with h | h | h
    · exact Or.inl (by simp [strLeB, h])
    · subst h
      rcases strLeB_total as bs with h' | h' <;>
        [exact Or.inl (by simp [strLeB, lt_irrefl, h']);
         exact Or.inr (by simp [strLeB, lt_irrefl, h'])]
    · exact Or.inr (by simp [strLeB, h])

theorem strLeB_trans : ∀ a b c, strLeB a b = true → strLeB b c = true → strLeB a c = true
  | [], _, _, _, _ => rfl
  | _ :: _, [], _, h, _ => by simp [strLeB] at h
  | _ :: _, _ :: _, [], _, h => by simp [strLeB] at h
  | a :: as, b :: bs, c :: cs, hab, hbc => by
    by_cases h1 : a < b
    · by_cases h2 : b < c
      · simp [strLeB, lt_trans h1 h2]
      · by_cases h3 : c < b
        · simp [strLeB, h2, h3] at hbc
        · have : b = c := le_antisymm (not_lt.mp h3) (not_lt.mp h2)
          subst this
          simp [strLeB, h1]
    · by_cases h1' : b < a
      · simp [strLeB, h1, h1'] at hab
      · have : a = b := le_antisymm (not_lt.mp h1') (not_lt.mp h1)
        subst this
        by_cases h2 : a < c
        · simp [strLeB, h2]
        · by_cases h3 : c < a
          · simp [strLeB, h2, h3] at hbc
          · have : a = c := le_antisymm (not_lt.mp h3) (not_lt.mp h2)
            subst this
            simp [strLeB, lt_irrefl] at hab hbc ⊢
            exact strLeB_trans as bs cs hab hbc

instance : IsTotal (String × String) entryLE :=
  ⟨fun a b => strLeB_total a.1.data b.1.data⟩

instance : IsTrans (String × String) entryLE :=
  ⟨fun _ _ _ h h' => strLeB_trans _ _ _ h h'⟩

mutual
/-- Model of `json.dumps(v, sort_keys=True, separators=(",", ":"))`, the
canonical serialization used by `_stable_request_hash` in
`app/api/subscriptions.py`. -/
def dumps : Json → String
  | .null => "null"
  | .bool b => cond b "true" "false"
  | .num n => toString n
  | .str s => jstr s
  | .arr xs => "[" ++ joinComma (dumpsArr xs) ++ "]"
  | .obj kvs =>
      "\x7b" ++ joinComma (((renderEntries kvs).insertionSort entryLE).map Prod.snd) ++ "\x7d"
termination_by structural j => j

def dumpsArr : JArr → List String
  | .nil => []
  | .cons x tl => dumps x :: dumpsArr tl
termination_by structural a => a

/-- Render each object entry to `(key, "key":value)`; the rendered
entries are then ordered by key. -/
def renderEntries : JObj → List (String × String)
  | .nil => []
  | .cons k v tl => (k, jstr k ++ ":" ++ dumps v) :: renderEntries tl
termination_by structural o => o
end

/-- Insert an entry into a key-sorted entry list (used to define the
canonical form of a JSON value). -/
def insertEntry (k : String) (v : Json) : JObj → JObj
  | .nil => .cons k v .nil
  | .cons k' v' tl =>
      if keyLE k k' then .cons k v (.cons k' v' tl) else .cons k' v' (insertEntry k v tl)

/-- Sort object entries by key (insertion sort). -/
def sortEntries : JObj → JObj
  | .nil => .nil
  | .cons k v tl => insertEntry k v (sortEntries tl)

mutual
/-- Canonical form of a JSON value: object entries sorted by key at
every level.  Two request bodies denote the same JSON value but are
serialized with different key order exactly when their parses share a
canonical form. -/
def canon : Json → Json
  | .null => .null
  | .bool b => .bool b
  | .num n => .num n
  | .str s => .str s
  | .arr xs => .arr (canonArr xs)
  | .obj kvs => .obj (sortEntries (canonObj kvs))
termination_by structural j => j

def canonArr : JArr → JArr
  | .nil => .nil
  | .cons x tl => .cons (canon x) (canonArr tl)
termination_by structural a => a

def canonObj : JObj → JObj
  | .nil => .nil
  | .cons k v tl => .cons k (canon v) (canonObj tl)
termination_by structural o => o
end

theorem renderEntries_insertEntry (k : String) (v : Json) :
    ∀ o : JObj, renderEntries (insertEntry k v o) =
      (renderEntries o).orderedInsert entryLE (k, jstr k ++ ":" ++ dumps v)
  | .nil => rfl
  | .cons k' v' tl => by
    by_cases h : keyLE k k'
    · simp [insertEntry, renderEntries, List.orderedInsert, entryLE, h]
    · simp [insertEntry, renderEntries, List.orderedInsert, entryLE, h,
        renderEntries_insertEntry k v tl]

theorem renderEntries_sortEntries :
    ∀ o : JObj, renderEntries (sortEntries o) = (renderEntries o).insertionSort entryLE
  | .nil => rfl
  | .cons k v tl => by
    simp [sortEntries, renderEntries, List.insertionSort, renderEntries_insertEntry,
      renderEntries_sortEntries tl]

theorem insertionSort_entryLE_idem (l : List (String × String)) :
    (l.insertionSort entryLE).insertionSort entryLE = l.insertionSort entryLE :=
  (List.sorted_insertionSort entryLE l).insertionSort_eq

mutual
/-- The canonical serialization is invariant under canonicalization:
`dumps` itself sorts keys at every level. -/
theorem dumps_canon : ∀ j : Json, dumps (canon j) = dumps j
  | .null => rfl
  | .bool _ => rfl
  | .num _ => rfl
  | .str _ => rfl
  | .arr xs => by rw [canon, dumps, dumpsArr_canonArr xs, dumps]
  | .obj kvs => by
    rw [canon, dumps, renderEntries_sortEntries, insertionSort_entryLE_idem,
      renderEntries_canonObj kvs, dumps]
termination_by structural j => j

theorem dumpsArr_canonArr : ∀ a : JArr, dumpsArr (canonArr a) = dumpsArr a
  | .nil => rfl
  | .cons x tl => by rw [canonArr, dumpsArr, dumps_canon x, dumpsArr_canonArr tl, dumpsArr]
termination_by structural a => a

theorem renderEntries_canonObj : ∀ o : JObj, renderEntries (canonObj o) = renderEntries o
  | .nil => rfl
  | .cons k v tl => by
    rw [canonObj, renderEntries, dumps_canon v, renderEntries_canonObj tl, renderEntries]
termination_by structural o => o
end

/-! ### The stable request hash (`_stable_request_hash`) -/

/-- Model of `_stable_request_hash` (`app/api/subscriptions.py`): sha256 over
`json.dumps(payload, sort_keys=True, separators=(",", ":"))`.  The
digest function is a parameter (any deterministic digest function). -/
def stableRequestHash (sha256 : String → String) (payload : Json) : String :=
  sha256 (dumps payload)

/-! ### Create-subscription request payloads -/

/-- Model of `CreateSubscriptionRequest` (`app/schemas/api_models.py`).
Metadata values are modelled as strings (the engine only ever reads the
string-valued `cadence` hint from them). -/
structure CreateReq where
  accountId : String
  planCode : String
  quantity : Int
  checkout : Option Bool
  coupon : Option String
  metadata : List (String × String)
deriving DecidableEq

def jobjOfPairs : List (String × String) → JObj
  | [] => .nil
  | (k, v) :: rest => .cons k (.str v) (jobjOfPairs rest)

def optStr : Option String → Json
  | none => .null
  | some s => .str s

def optBoolJson : Option Bool → Json
  | none => .null
  | some b => .bool b

/-- Model of `body.model_dump(mode="json")`: the request payload as the dict the
gate hashes (fields in pydantic declaration order). -/
def reqJson (b : CreateReq) : Json :=
  .obj (.cons "accountId" (.str b.accountId)
    (.cons "planCode" (.str b.planCode)
    (.cons "quantity" (.num b.quantity)
    (.cons "checkout" (optBoolJson b.checkout)
    (.cons "coupon" (optStr b.coupon)
    (.cons "metadata" (.obj (jobjOfPairs b.metadata)) .nil))))))

/-! ### Local mirror rows, snapshots, provider -/

/-- A committed `subscriptions` row (`app/persistence/models.py`). -/
structure SubRow where
  id : String
  projectId : String
  accountId : String
  planCode : String
  quantity : Int
  status : String
  stripeCustomerId : Option String
  stripeSubscriptionId : Option String
  currentPeriodStart : Option Int
  currentPeriodEnd : Option Int
  trialEndAt : Option Int
  cancelAtPeriodEnd : Bool
  currency : String
  unitPrice : Int
  checkoutUrl : Option String
  meta : List (String × String)
deriving DecidableEq

/-- A provider-authoritative subscription snapshot (status, period
bounds, trial end, cancellation flag, customer, metadata).  Timestamps
are epoch seconds; prices are in cents (the source uses floats). -/
structure Snapshot where
  id : String
  status : String
  currentPeriodStart : Option Int
  currentPeriodEnd : Option Int
  trialEnd : Option Int
  cancelAtPeriodEnd : Bool
  customer : Option String
  metadata : List (String × String)
deriving DecidableEq

/-- The payment-provider gateway.  Each operation returns the outcome
of the remote call; `Except.error` / `none` model a raised exception. -/
structure Provider where
  resolvePriceId : String → String → Int → Except String String
  ensureCustomer : String → String → List (String × String) → Except String String
  createCheckoutSession : String → String → Int → Int → Option String → Option String →
    Except String (String × String)
  createSubscription : String → String → Int → Int → Option String → Option String →
    Except String Snapshot
  retrieveSubscription : String → Option Snapshot
  retrieveCustomer : String → Option (List (String × String))

/-- Model of `if x is not None: field = x`, the per-field write pattern of the
repo update helpers. -/
def ovw {α : Type} (new old : Option α) : Option α :=
  match new with
  | some v => some v
  | none => old

/-- Model of `SubscriptionRepo.update_from_stripe` (`app/persistence/repo.py`
lines 157-182): each field is overwritten only when the corresponding
argument is not `None`; a `None` argument leaves the local value. -/
def update_from_stripe (sub : SubRow) (status : Option String)
    (cps cpe trialEnd : Option Int) (cape : Option Bool) (ssid : Option String) : SubRow :=
  { sub with
    status := status.getD sub.status
    currentPeriodStart := ovw cps sub.currentPeriodStart
    currentPeriodEnd := ovw cpe sub.currentPeriodEnd
    trialEndAt := ovw trialEnd sub.trialEndAt
    cancelAtPeriodEnd := cape.getD sub.cancelAtPeriodEnd
    stripeSubscriptionId := ovw ssid sub.stripeSubscriptionId }

/-! ### Tenant config and plan resolution (`SubscriptionEngine` helpers) -/

structure Plan where
  code : String
  cadence : Option String
  price : Option Int
  trial : Option Int
  strategies : List (String × String)
deriving DecidableEq

structure Cfg where
  currency : Option String
  plans : List Plan
deriving DecidableEq

structure PlanData where
  currency : String
  cadence : String
  unitPrice : Int
  trialDays : Int
deriving DecidableEq

/-- Kernel-computable `str.upper()`. -/
def toUpperB (s : String) : String := ⟨s.data.map Char.toUpper⟩

def extractCurrency (cfg : Cfg) : Except String String :=
  match cfg.currency with
  | some c => if c.length = 3 then .ok (toUpperB c) else .error "Config is invalid: currency"
  | none => .error "Config is invalid: currency"

def pickCadenceHint (metadata : List (String × String)) : Option String :=
  match metadata.lookup "cadence" with
  | some c => if c = "monthly" ∨ c = "annual" then some c else none
  | none => none

/-- Model of `SubscriptionEngine._find_plan`: first match by code; among several
matches prefer the cadence hint, then `monthly`, then the first. -/
def findPlan (plans : List Plan) (planCode : String) (hint : Option String) :
    Except String Plan :=
  match plans.filter (fun p => p.code == planCode) with
  | [] => .error ("planCode '" ++ planCode ++ "' not found")
  | [p] => .ok p
  | p :: rest =>
    let ms := p :: rest
    match hint.bind (fun hc => ms.find? (fun q => q.cadence == some hc)) with
    | some q => .ok q
    | none =>
      match ms.find? (fun q => q.cadence == some "monthly") with
      | some q => .ok q
      | none => .ok p

def extractCadence (p : Plan) : Except String String :=
  match p.cadence with
  | some c => if c = "monthly" ∨ c = "annual" then .ok c
              else .error "Plan is missing a valid cadence"
  | none => .error "Plan is missing a valid cadence"

def extractPrice (p : Plan) : Except String Int :=
  match p.price with
  | some n => if n < 0 then .error "Plan price cannot be negative" else .ok n
  | none => .error "Plan price must be a number"

def trialDaysOf (p : Plan) : Except String Int :=
  match p.trial with
  | none => .ok 0
  | some d => if d < 0 then .error "trial.days must be a non-negative integer" else .ok d

def checkStrategies (p : Plan) : Except String Unit :=
  if ["ProrationStrategy", "InvoicingStrategy", "EntitlementStrategy"].all
      (fun k => match p.strategies.lookup k with
                | some s => s != ""
                | none => false) then
    .ok ()
  else .error "Plan strategies are required"

/-- The read-only plan-resolution phase of
`SubscriptionEngine.create_subscription`: load config, currency, plans
array, select the plan, validate cadence/price/trial/strategies. -/
def resolvePlan (cfg? : Option Cfg) (body : CreateReq) : Except String PlanData := do
  let cfg ← match cfg? with
    | none => Except.error "No config published for this project"
    | some c => Except.ok c
  let currency ← extractCurrency cfg
  if cfg.plans.isEmpty then Except.error "Config is invalid: plans" else
  let plan ← findPlan cfg.plans body.planCode (pickCadenceHint body.metadata)
  let cadence ← extractCadence plan
  let unitPrice ← extractPrice plan
  let td ← trialDaysOf plan
  let _ ← checkStrategies plan
  return ⟨currency, cadence, unitPrice, td⟩

/-! ### The subscription engine (`SubscriptionEngine.create_subscription`) -/

inductive EngErr where
  | validation (msg : String)
  | providerFailure (msg : String)
deriving DecidableEq

/-- Model of `_decide_flow`: `checkout=True/None → "checkout"`,
`checkout=False → "direct"`. -/
def decideFlow : Option Bool → String
  | some true => "checkout"
  | some false => "direct"
  | none => "checkout"

/-- ISO rendering of an optional epoch timestamp, modelled by its
decimal string (`_iso`/`_from_epoch` in `app/engine/engine.py`). -/
def isoOf : Option Int → Json
  | none => .null
  | some t => .str (toString t)

/-- The `SubscriptionResponse` DTO built at the end of
`SubscriptionEngine.create_subscription`, as a JSON payload
(`model_dump(mode="json")`, which is what the gate caches). -/
def dtoOfRow (sub : SubRow) (status : String) (checkoutUrl : Option String) : Json :=
  .obj (.cons "id" (.str sub.id)
    (.cons "projectId" (.str sub.projectId)
    (.cons "accountId" (.str sub.accountId)
    (.cons "planCode" (.str sub.planCode)
    (.cons "quantity" (.num sub.quantity)
    (.cons "status" (.str status)
    (.cons "stripeCustomerId" (optStr sub.stripeCustomerId)
    (.cons "stripeSubscriptionId" (optStr sub.stripeSubscriptionId)
    (.cons "currentPeriodStart" (isoOf sub.currentPeriodStart)
    (.cons "currentPeriodEnd" (isoOf sub.currentPeriodEnd)
    (.cons "trialEndAt" (isoOf sub.trialEndAt)
    (.cons "cancelAtPeriodEnd" (.bool sub.cancelAtPeriodEnd)
    (.cons "checkoutUrl" (optStr checkoutUrl)
    (.cons "metadata" (.obj (jobjOfPairs sub.meta)) .nil))))))))))))))

/-- The minimal local row persisted (and committed) by the engine
*before* the provider subscription/checkout call
(`app/engine/engine.py` lines 221-238). -/
def mkPending (projectId : String) (body : CreateReq) (pd : PlanData)
    (customerId subId : String) : SubRow :=
  { id := subId
    projectId := projectId
    accountId := body.accountId
    planCode := body.planCode
    quantity := body.quantity
    status := "pending"
    stripeCustomerId := some customerId
    stripeSubscriptionId := none
    currentPeriodStart := none
    currentPeriodEnd := none
    trialEndAt := none
    cancelAtPeriodEnd := false
    currency := pd.currency
    unitPrice := pd.unitPrice
    checkoutUrl := none
    meta := body.metadata }

instance {e a : Type} [DecidableEq e] [DecidableEq a] : DecidableEq (Except e a) := fun x y =>
  match x, y with
  | .ok v, .ok w => if h : v = w then isTrue (by rw [h]) else isFalse (by simp [h])
  | .error v, .error w => if h : v = w then isTrue (by rw [h]) else isFalse (by simp [h])
  | .ok _, .error _ => isFalse (by simp)
  | .error _, .ok _ => isFalse (by simp)

structure EngineResult where
  subs : List SubRow
  calls : Nat
  result : Except EngErr Json
deriving DecidableEq

/-- Model of `SubscriptionEngine.create_subscription` (`app/engine/engine.py`).
`subs` is the committed content of the `subscriptions` table; the
engine commits the `pending` row before the provider
subscription/checkout call, so a provider failure at that point leaves
the pending row committed.  `calls` counts provider API calls.
`EngineError` validation failures map to `.validation`; any other
exception (raised by the provider SDK) maps to `.providerFailure`. -/
def engineCreate (prov : Provider) (cfg? : Option Cfg) (projectId : String)
    (body : CreateReq) (idemKey : Option String) (subs : List SubRow) : EngineResult :=
  if body.quantity < 1 then ⟨subs, 0, .error (.validation "quantity must be >= 1")⟩
  else
    match resolvePlan cfg? body with
    | .error m => ⟨subs, 0, .error (.validation m)⟩
    | .ok pd =>
      match prov.resolvePriceId pd.currency pd.cadence pd.unitPrice with
      | .error m => ⟨subs, 1, .error (.providerFailure m)⟩
      | .ok priceId =>
        match prov.ensureCustomer body.accountId projectId body.metadata with
        | .error m => ⟨subs, 2, .error (.providerFailure m)⟩
        | .ok customerId =>
          -- "Persist minimal local row first (pending)" + `db.commit()`
          let pending := mkPending projectId body pd customerId
            ("sub_" ++ toString subs.length)
          let subs1 := subs ++ [pending]
          if decideFlow body.checkout = "checkout" then
            match prov.createCheckoutSession customerId priceId body.quantity
                pd.trialDays body.coupon idemKey with
            | .error m => ⟨subs1, 3, .error (.providerFailure m)⟩
            | .ok (url, _sid) =>
              let final := { pending with checkoutUrl := some url }
              ⟨subs ++ [final], 3, .ok (dtoOfRow final "pending" (some url))⟩
          else
            match prov.createSubscription customerId priceId body.quantity
                pd.trialDays body.coupon idemKey with
            | .error m => ⟨subs1, 3, .error (.providerFailure m)⟩
            | .ok snap =>
              -- `repo.update(...)` writes the snapshot fields (same
              -- skip-if-None semantics as `update_from_stripe`).
              let final := update_from_stripe pending (some snap.status)
                snap.currentPeriodStart snap.currentPeriodEnd snap.trialEnd
                none (some snap.id)
              ⟨subs ++ [final], 3, .ok (dtoOfRow final snap.status none)⟩

/-! ### The idempotent command gate (POST /subscriptions) -/

inductive IdemStatus where
  | inProgress
  | succeeded
  | failed
deriving DecidableEq

/-- An `idempotency_keys` row as used by the endpoint-level gate
(`IdempotencyRepo`): primary key `(project_id, key)` plus the stored
request hash, status tag and cached response payload. -/
structure IdemRecord where
  requestHash : String
  status : IdemStatus
  response : Option Json
deriving DecidableEq

/-- Python truthiness of a JSON value (`if existing.response:`). -/
def jsonTruthy : Json → Bool
  | .null => false
  | .bool b => b
  | .num n => n != 0
  | .str s => s != ""
  | .arr .nil => false
  | .arr (.cons _ _) => true
  | .obj .nil => false
  | .obj (.cons _ _ _) => true

/-- Committed state touched by the create-subscription command for one
fixed `(tenant, idempotency key)` pair: its `idempotency_keys` row, the
`subscriptions` table and the cumulative number of provider calls. -/
structure AppState where
  idem : Option IdemRecord
  subs : List SubRow
  providerCalls : Nat
deriving DecidableEq

inductive GateOutcome where
  | missingHeader
  | replayed (resp : Json)
  | created (resp : Json)
  | conflictInProgress
  | validationError (msg : String)
  | internalError (msg : String)
deriving DecidableEq

def errPayload (ty msg : String) : Json :=
  .obj (.cons "type" (.str ty) (.cons "message" (.str msg) .nil))

/-- Model of the `create_subscription` endpoint (`app/api/subscriptions.py` lines 23-67), the
endpoint-level idempotency gate.  Notes from the source:
* an existing record is dispatched on `status` only — the stored
  `request_hash` is never compared against the fresh one;
* a record in state `failed` (or `succeeded` without a truthy cached
  response) falls through to `IdempotencyRepo.create_in_progress`,
  which `add`s a fresh row under the already-used primary key
  `(project_id, key)`; the flush raises (identity/unique conflict),
  nothing is committed, and the request ends with an internal error. -/
def createSubscriptionEndpoint (sha256 : String → String) (prov : Provider)
    (cfg? : Option Cfg) (projectId idemKey : String) (body : CreateReq)
    (st : AppState) : AppState × GateOutcome :=
  if idemKey = "" then (st, .missingHeader)
  else
    let reqHash := stableRequestHash sha256 (reqJson body)
    match st.idem with
    | some r =>
      if r.status = .succeeded ∧ ((r.response.map jsonTruthy).getD false) = true then
        (st, .replayed (r.response.getD .null))
      else if r.status = .inProgress then (st, .conflictInProgress)
      else (st, .internalError "duplicate primary key (project_id, key) in idempotency_keys")
    | none =>
      let er := engineCreate prov cfg? projectId body (some idemKey) st.subs
      match er.result with
      | .ok resp =>
        (⟨some ⟨reqHash, .succeeded, some resp⟩, er.subs, st.providerCalls + er.calls⟩,
         .created resp)
      | .error (.validation m) =>
        (⟨some ⟨reqHash, .failed, some (errPayload "validation_error" m)⟩, er.subs,
          st.providerCalls + er.calls⟩, .validationError m)
      | .error (.providerFailure m) =>
        (⟨some ⟨reqHash, .failed, some (errPayload "error" m)⟩, er.subs,
          st.providerCalls + er.calls⟩, .internalError m)

/-- Replaying the same command `n` times. -/
def endpointIter (sha256 : String → String) (prov : Provider) (cfg? : Option Cfg)
    (projectId idemKey : String) (body : CreateReq) : Nat → AppState → AppState
  | 0, st => st
  | n + 1, st =>
    endpointIter sha256 prov cfg? projectId idemKey body n
      (createSubscriptionEndpoint sha256 prov cfg? projectId idemKey body st).1

/-! ### Webhook reconciliation engine (`app/api/stripe_webhooks.py`) -/

/-- A committed `payment_events` row.  The dedup key is
`(provider, payload->>'id')`; `eventId` models the `id` field of the
stored raw payload (the handler stores the full event, whose `id` is
the provider-issued event id). -/
structure EventRow where
  projectId : String
  provider : String
  eventType : String
  eventId : String
deriving DecidableEq

/-- A mirrored `invoices` row.  Invoice-line mirroring
(`replace_lines_from_stripe_payload`) happens inside the same commit
and no claim depends on it, so lines are not modelled. -/
structure InvoiceRow where
  projectId : String
  subscriptionId : Option String
  stripeInvoiceId : String
  stripeCustomerId : Option String
  stripeSubscriptionId : Option String
  status : String
  currency : Option String
  subtotalCents : Option Int
  totalCents : Option Int
  hostedInvoiceUrl : Option String
  periodStart : Option Int
  periodEnd : Option Int
deriving DecidableEq

/-- The `data.object` dict of a webhook event (union of the fields the
handler reads for sessions, invoices and subscriptions). -/
structure WhObj where
  id : Option String
  metadata : List (String × String)
  subscription : Option String
  customer : Option String
  status : Option String
  currentPeriodStart : Option Int
  currentPeriodEnd : Option Int
  trialEnd : Option Int
  cancelAtPeriodEnd : Option Bool
  currency : Option String
  subtotal : Option Int
  total : Option Int
  hostedInvoiceUrl : Option String
  periodStart : Option Int
  periodEnd : Option Int
deriving DecidableEq

def emptyWhObj : WhObj :=
  ⟨none, [], none, none, none, none, none, none, none, none, none, none, none, none, none⟩

/-- A parsed webhook event (post signature verification).  `id` or
`eventType` equal to `""` model a missing/empty (falsy) field; a
missing `data.object` is normalized to the empty dict by `_to_dict`. -/
structure WhEvent where
  id : String
  eventType : String
  obj : WhObj
deriving DecidableEq

/-- Model of `EventRepo.record_if_new` (`app/persistence/repo.py` lines
191-226): look the `(provider, payload->>'id')` pair up first; insert
only when no matching row exists.  Returns the flushed log and whether
a row was inserted. -/
def record_if_new (events : List EventRow) (provider eventId projectId eventType : String) :
    List EventRow × Bool :=
  if events.any (fun e => e.provider == provider && e.eventId == eventId) then
    (events, false)
  else
    (events ++ [⟨projectId, provider, eventType, eventId⟩], true)

/-- Model of `s.startswith(p)` on code points (kernel-computable counterpart of
`String.startsWith`). -/
def listIsInit : List Char → List Char → Bool
  | [], _ => true
  | _ :: _, [] => false
  | a :: as, b :: bs => a == b && listIsInit as bs

def startsWithB (s p : String) : Bool := listIsInit p.data s.data

/-- Model of `_project_from_invoice`: the referenced subscription's metadata,
else the referenced customer's metadata; raised provider calls are
swallowed (`except Exception: pass`), modelled by `none`. -/
def projectFromInvoice (prov : Provider) (inv : WhObj) : Option String :=
  (inv.subscription.bind (fun sid =>
    (prov.retrieveSubscription sid).bind (fun s => s.metadata.lookup "project_id"))).orElse
  (fun _ => inv.customer.bind (fun cid =>
    (prov.retrieveCustomer cid).bind (fun md => md.lookup "project_id")))

/-- Model of `_infer_project_id_for_event`: explicit object metadata, then the
event-shape-specific cascade. -/
def inferProjectIdForEvent (prov : Provider) (eventType : String) (obj : WhObj) :
    Option String :=
  match obj.metadata.lookup "project_id" with
  | some v => some v
  | none =>
    if startsWithB eventType "invoice." then projectFromInvoice prov obj
    else if startsWithB eventType "customer.subscription." then
      match obj.id with
      | none => none
      | some sid =>
        match prov.retrieveSubscription sid with
        | none => none
        | some s =>
          match s.metadata.lookup "project_id" with
          | some v => some v
          | none => s.customer.bind (fun cid =>
              (prov.retrieveCustomer cid).bind (fun md => md.lookup "project_id"))
    else if eventType = "checkout.session.completed" then
      match obj.subscription with
      | none => none
      | some sid =>
        match prov.retrieveSubscription sid with
        | none => none
        | some s =>
          match s.metadata.lookup "project_id" with
          | some v => some v
          | none => s.customer.bind (fun cid =>
              (prov.retrieveCustomer cid).bind (fun md => md.lookup "project_id"))
    else none

/-- Tenant resolution in the handler: explicit `metadata.project_id`
on the object, else the inference cascade. -/
def resolveProjectId (prov : Provider) (ev : WhEvent) : Option String :=
  match ev.obj.metadata.lookup "project_id" with
  | some v => some v
  | none => inferProjectIdForEvent prov ev.eventType ev.obj

/-- Model of `InvoiceRepo.upsert_from_stripe` at row granularity.  Update
fields follow the source: `or`-merge for status/currency/urls/ids,
direct overwrite for subtotal/total/period bounds. -/
def upsertInvoice (projectId stripeId : String) (inv : WhObj) (subs : List SubRow)
    (invoices : List InvoiceRow) : List InvoiceRow :=
  let stripeSubId := inv.subscription
  let localSubId := stripeSubId.bind (fun sid =>
    (subs.find? (fun s => s.stripeSubscriptionId == some sid)).map (fun s => s.id))
  if invoices.any (fun r => r.stripeInvoiceId == stripeId) then
    invoices.map (fun r =>
      if r.stripeInvoiceId == stripeId then
        { r with
          status := inv.status.getD r.status
          subtotalCents := inv.subtotal
          totalCents := inv.total
          currency := ovw inv.currency r.currency
          hostedInvoiceUrl := ovw inv.hostedInvoiceUrl r.hostedInvoiceUrl
          periodStart := inv.periodStart
          periodEnd := inv.periodEnd
          subscriptionId := ovw localSubId r.subscriptionId
          stripeCustomerId := ovw inv.customer r.stripeCustomerId
          stripeSubscriptionId := ovw stripeSubId r.stripeSubscriptionId }
      else r)
  else
    invoices ++ [⟨projectId, localSubId, stripeId, inv.customer, stripeSubId,
      inv.status.getD "open", inv.currency, inv.subtotal, inv.total,
      inv.hostedInvoiceUrl, inv.periodStart, inv.periodEnd⟩]

/-- Replace the (ORM-mutated) row with the given local id. -/
def replaceRow (subs : List SubRow) (localId : String) (new : SubRow) : List SubRow :=
  subs.map (fun s => if s.id == localId then new else s)

/-- Result of running a handler branch inside the request's session. -/
inductive TxResult where
  | committed (subs : List SubRow) (invoices : List InvoiceRow)
  | uncommitted
  | raised
deriving DecidableEq

/-- The per-event-type handler section of the webhook, run after
`record_if_new` flushed the event row.  `.committed` marks branches
that reach `db.commit()`; a branch returning without a commit leaves
everything flushed in the request's session to be rolled back when it
closes (`get_db` in `app/core/deps.py` never commits), and `.raised`
models an exception escaping the handler (also a rollback). -/
def applyEvent (prov : Provider) (ev : WhEvent) (projectId : String)
    (subs : List SubRow) (invoices : List InvoiceRow) : TxResult :=
  if ev.eventType = "checkout.session.completed" then
    match ev.obj.metadata.lookup "subscription_local_id", ev.obj.subscription with
    | some lid, some ssid =>
      match subs.find? (fun s => s.id == lid) with
      | some localSub =>
        match prov.retrieveSubscription ssid with
        | none => .raised
        | some remote =>
          .committed (replaceRow subs lid (update_from_stripe localSub
            (some remote.status) remote.currentPeriodStart remote.currentPeriodEnd
            remote.trialEnd (some remote.cancelAtPeriodEnd) (some remote.id))) invoices
      | none => .uncommitted
    | _, _ => .uncommitted
  else if ev.eventType = "invoice.payment_succeeded"
      ∨ ev.eventType = "invoice.payment_failed" then
    match ev.obj.id with
    | none => .raised
    | some stripeInvoiceId =>
      let invoices1 := upsertInvoice projectId stripeInvoiceId ev.obj subs invoices
      match ev.obj.subscription with
      | none => .committed subs invoices1
      | some sid =>
        match prov.retrieveSubscription sid with
        | none => .raised
        | some remote =>
          match subs.find? (fun s => s.stripeSubscriptionId == some sid) with
          | none => .committed subs invoices1
          | some localSub =>
            .committed (replaceRow subs localSub.id (update_from_stripe localSub
              (some remote.status) remote.currentPeriodStart remote.currentPeriodEnd
              remote.trialEnd (some remote.cancelAtPeriodEnd) none)) invoices1
  else if ev.eventType = "customer.subscription.updated" then
    match ev.obj.id with
    | none => .uncommitted
    | some sid =>
      match subs.find? (fun s => s.stripeSubscriptionId == some sid) with
      | none => .uncommitted
      | some localSub =>
        .committed (replaceRow subs localSub.id (update_from_stripe localSub
          ev.obj.status ev.obj.currentPeriodStart ev.obj.currentPeriodEnd
          ev.obj.trialEnd (some (ev.obj.cancelAtPeriodEnd.getD false)) none)) invoices
  else if ev.eventType = "customer.subscription.deleted" then
    match ev.obj.id with
    | none => .uncommitted
    | some sid =>
      match subs.find? (fun s => s.stripeSubscriptionId == some sid) with
      | none => .uncommitted
      | some localSub =>
        .committed (replaceRow subs localSub.id (update_from_stripe localSub
          (some "canceled") none none none none none)) invoices
  else .uncommitted

/-- Committed content of the local mirror store touched by the
webhook: the payment-event log, subscriptions and mirrored invoices. -/
structure WhState where
  events : List EventRow
  subs : List SubRow
  invoices : List InvoiceRow
deriving DecidableEq

inductive WhOutcome where
  | malformed
  | tenantUnresolved
  | deduped
  | ack (eventType : String)
  | raised
deriving DecidableEq

/-- One webhook delivery (`webhook` in `app/api/stripe_webhooks.py`),
after signature verification and `_to_dict` normalization:
shape guard, tenant resolution, dedup gate, per-event-type handler. -/
def webhookStep (prov : Provider) (ev : WhEvent) (st : WhState) : WhState × WhOutcome :=
  if ev.id = "" ∨ ev.eventType = "" then (st, .malformed)
  else
    match resolveProjectId prov ev with
    | none => (st, .tenantUnresolved)
    | some pid =>
      match record_if_new st.events "stripe" ev.id pid ev.eventType with
      | (_, false) => (st, .deduped)
      | (events1, true) =>
        match applyEvent prov ev pid st.subs st.invoices with
        | .committed subs1 invoices1 => (⟨events1, subs1, invoices1⟩, .ack ev.eventType)
        | .uncommitted => (st, .ack ev.eventType)
        | .raised => (st, .raised)

/-- Deliver a sequence of webhook events one at a time. -/
def deliverAll (prov : Provider) : List WhEvent → WhState → WhState
  | [], st => st
  | ev :: rest, st => deliverAll prov rest (webhookStep prov ev st).1

/-- Number of deliveries (out of `n` repeated deliveries of `ev`) that
change the committed local mirror store. -/
def countMutations (prov : Provider) (ev : WhEvent) : Nat → WhState → Nat
  | 0, _ => 0
  | n + 1, st =>
    let st1 := (webhookStep prov ev st).1
    (if st1 = st then 0 else 1) + countMutations prov ev n st1

/-! ### ASGI idempotency middleware (`app/core/middleware.py`) -/

structure StoredResponse where
  status : Nat
  headers : List (String × String)
  body : String
deriving DecidableEq

/-- An inbound HTTP request as the middleware sees it.  `none` header
values also cover present-but-empty headers (`_header` returns `None`
for falsy values). -/
structure MwRequest where
  method : String
  path : String
  idemKey : Option String
  projectId : Option String
  body : String
deriving DecidableEq

/-- An `idempotency_keys` row as the middleware reads and writes it:
keyed by `(project_id, key)`, holding the raw-body hash and the stored
response status/headers/body. -/
structure MwRow where
  projectId : String
  key : String
  requestHash : String
  resp : StoredResponse
deriving DecidableEq

def EXEMPT_PATHS : List String :=
  ["/health", "/docs", "/redoc", "/openapi.json", "/docs/oauth2-redirect",
   "/stripe/webhook", "/favicon.ico"]

def missingHeaderResponse : StoredResponse :=
  ⟨422, [("content-type", "application/json")],
   "\x7b\"error\": \"Missing Idempotency-Key or X-Project-Id header\"\x7d"⟩

/-- One pass of `IdempotencyMiddleware.__call__`.  Returns the new
stored-response table, the response sent to the client, and whether
the wrapped application was invoked.  `sha256` is the digest applied
to the *raw* request body.  Any stored row for `(project_id, key)` is
replayed (status, headers, body) without calling the application;
otherwise the application runs and its response is persisted when its
status is < 500, via `INSERT ... ON CONFLICT (project_id, key) DO
NOTHING`. -/
def middlewareStep (sha256 : String → String) (app : MwRequest → StoredResponse)
    (table : List MwRow) (req : MwRequest) : List MwRow × StoredResponse × Bool :=
  if req.method = "OPTIONS" ∨ EXEMPT_PATHS.any (fun p => startsWithB req.path p) then
    (table, app req, true)
  else if ¬(req.method = "POST" ∨ req.method = "PUT" ∨ req.method = "PATCH") then
    (table, app req, true)
  else
    match req.idemKey, req.projectId with
    | some k, some p =>
      if k = "" ∨ p = "" then (table, missingHeaderResponse, false)
      else
        match table.find? (fun r => r.projectId == p && r.key == k) with
        | some r => (table, r.resp, false)
        | none =>
          let resp := app req
          if resp.status < 500 then
            (if table.any (fun r => r.projectId == p && r.key == k) then table
             else table ++ [⟨p, k, sha256 req.body, resp⟩], resp, true)
          else (table, resp, true)
    | _, _ => (table, missingHeaderResponse, false)

/-! ### Shared fixtures for concrete witnesses -/

/-- A provider whose every call fails / raises (never reached in the
replay scenarios). -/
def noProvider : Provider :=
  { resolvePriceId := fun _ _ _ => .error "down"
    ensureCustomer := fun _ _ _ => .error "down"
    createCheckoutSession := fun _ _ _ _ _ _ => .error "down"
    createSubscription := fun _ _ _ _ _ _ => .error "down"
    retrieveSubscription := fun _ => none
    retrieveCustomer := fun _ => none }

def bodyA : CreateReq := ⟨"A1", "BASIC", 1, some false, none, []⟩

def cachedResp : Json :=
  .obj (.cons "id" (.str "sub_0") (.cons "status" (.str "active") .nil))

/-! ### C3 — replay of a succeeded record -/

/-- C3: for a stored idempotency record in terminal state `succeeded`
(with its cached response) under the same request hash, a replayed
command returns exactly the cached payload and performs nothing: the
tracking row, the subscriptions table and the provider-call counter
are unchanged, for any number of replays. -/
theorem gate_succeeded_replays_cached_response
    (sha256 : String → String) (prov : Provider) (cfg? : Option Cfg)
    (projectId idemKey : String) (body : CreateReq) (st : AppState)
    (r : IdemRecord) (p : Json)
    (hkey : ¬ idemKey = "")
    (hrec : st.idem = some r)
    (hst : r.status = .succeeded)
    (hresp : r.response = some p)
    (htruthy : jsonTruthy p = true)
    (hhash : r.requestHash = stableRequestHash sha256 (reqJson body)) :
    createSubscriptionEndpoint sha256 prov cfg? projectId idemKey body st = (st, .replayed p)
    ∧ ∀ n, endpointIter sha256 prov cfg? projectId idemKey body n st = st := by
  have hstep :
      createSubscriptionEndpoint sha256 prov cfg? projectId idemKey body st
        = (st, .replayed p) := by
    simp [createSubscriptionEndpoint, hkey, hrec, hst, hresp, htruthy]
  refine ⟨hstep, fun n => ?_⟩
  induction n with
  | zero => rfl
  | succ n ih => simp [endpointIter, hstep, ih]

def succeededState : AppState :=
  ⟨some ⟨stableRequestHash (fun s => s) (reqJson bodyA), .succeeded, some cachedResp⟩, [], 0⟩

theorem gate_succeeded_replays_cached_response_witness :
    createSubscriptionEndpoint (fun s => s) noProvider none "p1" "k1" bodyA succeededState
      = (succeededState, .replayed cachedResp)
    ∧ endpointIter (fun s => s) noProvider none "p1" "k1" bodyA 3 succeededState
      = succeededState := by
  have h := gate_succeeded_replays_cached_response (fun s => s) noProvider none "p1" "k1"
    bodyA succeededState ⟨stableRequestHash (fun s => s) (reqJson bodyA), .succeeded,
      some cachedResp⟩ cachedResp (by decide) rfl rfl rfl (by decide) rfl
  exact ⟨h.1, h.2 3⟩

/-! ### C1 — key reuse with a differing body -/

/-- C1 (amended): the gate never consults the stored `request_hash`.
A command reusing a key with a request body whose hash differs from
the stored one is treated exactly as if the hash matched, by record
state alone: a `succeeded` record's cached response (the response of
the earlier, different request) is replayed and nothing executes; an
`in_progress` record yields 409 InProgress; a `failed` record takes
the (broken) retry path and fails on the duplicate primary key.  No
409 key-reuse conflict exists anywhere on this path. -/
theorem gate_ignores_request_hash
    (sha256 : String → String) (prov : Provider) (cfg? : Option Cfg)
    (projectId idemKey : String) (body : CreateReq) (st : AppState) (r : IdemRecord)
    (hkey : ¬ idemKey = "")
    (hrec : st.idem = some r)
    (hdiff : ¬ r.requestHash = stableRequestHash sha256 (reqJson body)) :
    (∀ p, r.status = .succeeded → r.response = some p → jsonTruthy p = true →
      createSubscriptionEndpoint sha256 prov cfg? projectId idemKey body st
        = (st, .replayed p))
    ∧ (r.status = .inProgress →
      createSubscriptionEndpoint sha256 prov cfg? projectId idemKey body st
        = (st, .conflictInProgress))
    ∧ (r.status = .failed →
      createSubscriptionEndpoint sha256 prov cfg? projectId idemKey body st
        = (st, .internalError "duplicate primary key (project_id, key) in idempotency_keys")) := by
  refine ⟨fun p hst hresp htruthy => ?_, fun hst => ?_, fun hst => ?_⟩
  · simp [createSubscriptionEndpoint, hkey, hrec, hst, hresp, htruthy]
  · simp [createSubscriptionEndpoint, hkey, hrec, hst]
  · simp [createSubscriptionEndpoint, hkey, hrec, hst]

def reusedKeyState : AppState := ⟨some ⟨"hash-of-the-first-body", .succeeded, some cachedResp⟩, [], 0⟩

/-- C1 counterexample: the stored record's hash differs from the new
body's content hash, yet the command does not fail with a 409
key-reuse conflict — it succeeds and returns the cached response of
the earlier, different request. -/
theorem gate_ignores_request_hash_counterexample :
    ¬ "hash-of-the-first-body" = stableRequestHash (fun s => s) (reqJson bodyA)
    ∧ createSubscriptionEndpoint (fun s => s) noProvider none "p1" "k1" bodyA reusedKeyState
      = (reusedKeyState, .replayed cachedResp) := by
  constructor
  · decide
  · rfl

theorem gate_ignores_request_hash_witness :
    createSubscriptionEndpoint (fun s => s) noProvider none "p1" "k1" bodyA reusedKeyState
      = (reusedKeyState, .replayed cachedResp) :=
  (gate_ignores_request_hash (fun s => s) noProvider none "p1" "k1" bodyA reusedKeyState
    ⟨"hash-of-the-first-body", .succeeded, some cachedResp⟩
    (by decide) rfl (by decide)).1 cachedResp rfl rfl (by decide)

/-! ### C6 — retry after a failed record -/

/-- C6 (code behaviour at the claim's scenario, supporting the
code-bug verdict): with the stored record in terminal state `failed`,
the retry request does not overwrite the tracking row and does not
invoke the operation.  `create_in_progress` inserts a fresh row under
the already-present primary key `(project_id, key)` — the flush
raises, nothing is committed, and the request fails — although the
handler's own comment says "if failed -> continue to retry". -/
theorem gate_failed_retry_fails_on_duplicate_key
    (sha256 : String → String) (prov : Provider) (cfg? : Option Cfg)
    (projectId idemKey : String) (body : CreateReq) (st : AppState) (r : IdemRecord)
    (hkey : ¬ idemKey = "")
    (hrec : st.idem = some r)
    (hst : r.status = .failed) :
    createSubscriptionEndpoint sha256 prov cfg? projectId idemKey body st
      = (st, .internalError "duplicate primary key (project_id, key) in idempotency_keys") := by
  simp [createSubscriptionEndpoint, hkey, hrec, hst]

def failedState : AppState :=
  ⟨some ⟨stableRequestHash (fun s => s) (reqJson bodyA), .failed,
    some (errPayload "error" "stripe is down")⟩, [], 0⟩

theorem gate_failed_retry_fails_on_duplicate_key_witness :
    createSubscriptionEndpoint (fun s => s) noProvider none "p1" "k1" bodyA failedState
      = (failedState, .internalError "duplicate primary key (project_id, key) in idempotency_keys") :=
  gate_failed_retry_fails_on_duplicate_key (fun s => s) noProvider none "p1" "k1" bodyA
    failedState ⟨stableRequestHash (fun s => s) (reqJson bodyA), .failed,
      some (errPayload "error" "stripe is down")⟩ (by decide) rfl rfl

/-! ### C2 — provider failure during a direct create -/

/-- C2 (amended): when the provider gateway fails at the
subscription-create call of a direct create command, the command
aborts and the idempotency record for `(tenant, key)` is marked
`failed` (the cached payload is the error payload, permitting a
client retry) — but the `pending` Subscription row committed before
the provider call remains in the Local Mirror Store: the local write
is partial. -/
theorem provider_failure_marks_failed_but_leaves_pending_row
    (sha256 : String → String) (prov : Provider) (cfg? : Option Cfg)
    (projectId idemKey : String) (body : CreateReq) (st : AppState)
    (pd : PlanData) (priceId customerId m : String)
    (hkey : ¬ idemKey = "")
    (hidem : st.idem = none)
    (hq : ¬ body.quantity < 1)
    (hplan : resolvePlan cfg? body = .ok pd)
    (hprice : prov.resolvePriceId pd.currency pd.cadence pd.unitPrice = .ok priceId)
    (hcust : prov.ensureCustomer body.accountId projectId body.metadata = .ok customerId)
    (hflow : body.checkout = some false)
    (hfail : prov.createSubscription customerId priceId body.quantity pd.trialDays
      body.coupon (some idemKey) = .error m) :
    (createSubscriptionEndpoint sha256 prov cfg? projectId idemKey body st).2
      = .internalError m
    ∧ (createSubscriptionEndpoint sha256 prov cfg? projectId idemKey body st).1.idem
      = some ⟨stableRequestHash sha256 (reqJson body), .failed, some (errPayload "error" m)⟩
    ∧ (createSubscriptionEndpoint sha256 prov cfg? projectId idemKey body st).1.subs
      = st.subs ++ [mkPending projectId body pd customerId ("sub_" ++ toString st.subs.length)]
    ∧ (mkPending projectId body pd customerId ("sub_" ++ toString st.subs.length)).status
      = "pending" := by
  have heng : engineCreate prov cfg? projectId body (some idemKey) st.subs
      = ⟨st.subs ++ [mkPending projectId body pd customerId ("sub_" ++ toString st.subs.length)],
         3, .error (.providerFailure m)⟩ := by
    simp [engineCreate, hq, hplan, hprice, hcust, hflow, decideFlow, hfail]
  simp [createSubscriptionEndpoint, hkey, hidem, heng, mkPending]

def bankruptProvider : Provider :=
  { resolvePriceId := fun _ _ _ => .ok "price_1"
    ensureCustomer := fun _ _ _ => .ok "cus_1"
    createCheckoutSession := fun _ _ _ _ _ _ => .ok ("https://pay.example/cs_1", "cs_1")
    createSubscription := fun _ _ _ _ _ _ => .error "stripe is down"
    retrieveSubscription := fun _ => none
    retrieveCustomer := fun _ => none }

def planBasic : Plan :=
  ⟨"BASIC", some "monthly", some 999, none,
   [("ProrationStrategy", "standard"), ("InvoicingStrategy", "per_seat"),
    ("EntitlementStrategy", "flat")]⟩

def cfgBasic : Cfg := ⟨some "usd", [planBasic]⟩

/-- C2 counterexample: after the provider fails during a direct
create, a committed `pending` Subscription row remains in the local
store — against the claim that no Subscription row (including no
`pending` row) remains committed. -/
theorem provider_failure_counterexample :
    ¬ (createSubscriptionEndpoint (fun s => s) bankruptProvider (some cfgBasic) "p1" "k1"
        bodyA ⟨none, [], 0⟩).1.subs = []
    ∧ ((createSubscriptionEndpoint (fun s => s) bankruptProvider (some cfgBasic) "p1" "k1"
        bodyA ⟨none, [], 0⟩).1.subs.all (fun s => s.status == "pending")) = true
    ∧ (createSubscriptionEndpoint (fun s => s) bankruptProvider (some cfgBasic) "p1" "k1"
        bodyA ⟨none, [], 0⟩).2 = .internalError "stripe is down" := by
  refine ⟨?_, rfl, rfl⟩
  decide

theorem provider_failure_marks_failed_but_leaves_pending_row_witness :
    (createSubscriptionEndpoint (fun s => s) bankruptProvider (some cfgBasic) "p1" "k1"
        bodyA ⟨none, [], 0⟩).1.idem
      = some ⟨stableRequestHash (fun s => s) (reqJson bodyA), .failed,
          some (errPayload "error" "stripe is down")⟩
    ∧ (createSubscriptionEndpoint (fun s => s) bankruptProvider (some cfgBasic) "p1" "k1"
        bodyA ⟨none, [], 0⟩).1.subs
      = [mkPending "p1" bodyA ⟨"USD", "monthly", 999, 0⟩ "cus_1" "sub_0"] := by
  have h := provider_failure_marks_failed_but_leaves_pending_row (fun s => s)
    bankruptProvider (some cfgBasic) "p1" "k1" bodyA ⟨none, [], 0⟩
    ⟨"USD", "monthly", 999, 0⟩ "price_1" "cus_1" "stripe is down"
    (by decide) rfl (by decide) (by decide) rfl rfl rfl rfl
  exact ⟨h.2.1, h.2.2.1⟩

/-! ### C5 — reconciliation write semantics -/

/-- C5 (amended): `update_from_stripe` overwrites the
status/period/trial/cancel fields with the snapshot values that are
present (non-null), and leaves a local field unchanged when the
snapshot's value for it is null/absent — a skip-if-None field-level
merge, not an unconditional full overwrite. -/
theorem update_from_stripe_merge_semantics (sub : SubRow) :
    (∀ st cps cpe te cape ssid,
      update_from_stripe sub (some st) (some cps) (some cpe) (some te) (some cape) ssid
        = { sub with
            status := st
            currentPeriodStart := some cps
            currentPeriodEnd := some cpe
            trialEndAt := some te
            cancelAtPeriodEnd := cape
            stripeSubscriptionId := ovw ssid sub.stripeSubscriptionId })
    ∧ update_from_stripe sub none none none none none none = sub := by
  constructor
  · intro st cps cpe te cape ssid
    rfl
  · rfl

def rowActive : SubRow :=
  { id := "s1", projectId := "p1", accountId := "A1", planCode := "BASIC",
    quantity := 1, status := "active", stripeCustomerId := some "cus_1",
    stripeSubscriptionId := some "sub_x", currentPeriodStart := some 100,
    currentPeriodEnd := some 200, trialEndAt := some 150,
    cancelAtPeriodEnd := false, currency := "USD", unitPrice := 999,
    checkoutUrl := none, meta := [] }

/-- C5 counterexample: a reconciliation write applying a snapshot
whose trial end is null leaves the local `trial_end_at` at its
previous non-null value instead of overwriting it with null, and a
null snapshot status likewise keeps the stale local status. -/
theorem update_from_stripe_counterexample :
    ¬ (update_from_stripe rowActive (some "active") (some 100) (some 200) none
        (some false) none).trialEndAt = (none : Option Int)
    ∧ (update_from_stripe rowActive (some "active") (some 100) (some 200) none
        (some false) none).trialEndAt = some 150
    ∧ (update_from_stripe rowActive none none none none none none).status = "active" := by
  exact ⟨by decide, rfl, rfl⟩

/-! ### C9 — tenant inference failure rejects before any write -/

/-- C9: when the object's metadata carries no explicit tenant and the
cascading inference (per event shape, via subscription then customer
metadata) yields none, the handler rejects with 400 before recording
the event in the dedup log and before any mirror mutation: the store
is returned unchanged.  No sentinel tenant exists on this path. -/
theorem webhook_rejects_unresolved_tenant
    (prov : Provider) (ev : WhEvent) (st : WhState)
    (hid : ¬ ev.id = "") (htype : ¬ ev.eventType = "")
    (hmd : ev.obj.metadata.lookup "project_id" = none)
    (hinfer : inferProjectIdForEvent prov ev.eventType ev.obj = none) :
    webhookStep prov ev st = (st, .tenantUnresolved) := by
  simp [webhookStep, hid, htype, resolveProjectId, hmd, hinfer]

def evOrphan : WhEvent :=
  ⟨"evt_7", "customer.subscription.updated", { emptyWhObj with id := some "sub_gone" }⟩

theorem webhook_rejects_unresolved_tenant_witness :
    webhookStep noProvider evOrphan ⟨[], [], []⟩ = (⟨[], [], []⟩, .tenantUnresolved) :=
  webhook_rejects_unresolved_tenant noProvider evOrphan ⟨[], [], []⟩
    (by decide) (by decide) rfl rfl

/-! ### C8 — at most one payment-event row per (provider, event id) -/

/-- The uniqueness invariant of the payment-event log: no two rows
share a `(provider, event id)` pair. -/
def dedupInv (events : List EventRow) : Prop :=
  events.Pairwise (fun a b => ¬(a.provider = b.provider ∧ a.eventId = b.eventId))

theorem dedupInv_step (prov : Provider) (ev : WhEvent) (st : WhState)
    (h : dedupInv st.events) : dedupInv ((webhookStep prov ev st).1.events) := by
  by_cases hshape : ev.id = "" ∨ ev.eventType = ""
  · simp [webhookStep, hshape, h]
  · rcases htenant : resolveProjectId prov ev with _ | pid
    · simp [webhookStep, hshape, htenant, h]
    · by_cases hdup : st.events.any
        (fun e => e.provider == "stripe" && e.eventId == ev.id) = true
      · simp [webhookStep, hshape, htenant, record_if_new, hdup, h]
      · have hnotin : ∀ e ∈ st.events, ¬(e.provider = "stripe" ∧ e.eventId = ev.id) := by
          intro e he
          rw [Bool.not_eq_true, List.any_eq_false] at hdup
          have := hdup e he
          simpa using this
        have hgrow : dedupInv (st.events ++ [⟨pid, "stripe", ev.eventType, ev.id⟩]) := by
          rw [dedupInv, List.pairwise_append]
          refine ⟨h, List.pairwise_singleton _ _, ?_⟩
          intro a ha b hb
          simp only [List.mem_singleton] at hb
          subst hb
          exact fun hc => hnotin a ha ⟨hc.1, hc.2⟩
        rcases happly : applyEvent prov ev pid st.subs st.invoices with ⟨subs1, inv1⟩ | _ | _ <;>
          simp [webhookStep, hshape, htenant, record_if_new, hdup, happly, h, hgrow]

/-- C8: processing any sequence of webhook deliveries one at a time
preserves "at most one payment-event row per (provider, event id)";
`record_if_new` looks the pair up first, inserts only when no matching
row exists, and leaves the log unchanged when one does. -/
theorem payment_event_log_unique (prov : Provider) (evs : List WhEvent) (st : WhState)
    (hinv : dedupInv st.events) :
    dedupInv ((deliverAll prov evs st).events)
    ∧ (∀ events provider eventId projectId eventType,
        ((record_if_new events provider eventId projectId eventType).2 = true
          ↔ events.any (fun e => e.provider == provider && e.eventId == eventId) = false))
    ∧ (∀ events provider eventId projectId eventType,
        (record_if_new events provider eventId projectId eventType).2 = false →
          (record_if_new events provider eventId projectId eventType).1 = events) := by
  refine ⟨?_, ?_, ?_⟩
  · induction evs generalizing st with
    | nil => exact hinv
    | cons ev rest ih => exact ih _ (dedupInv_step prov ev st hinv)
  · intro events provider eventId projectId eventType
    by_cases hdup : events.any (fun e => e.provider == provider && e.eventId == eventId) = true
    · simp [record_if_new, hdup]
    · rw [Bool.not_eq_true] at hdup
      simp [record_if_new, hdup]
  · intro events provider eventId projectId eventType
    by_cases hdup : events.any (fun e => e.provider == provider && e.eventId == eventId) = true
    · simp [record_if_new, hdup]
    · rw [Bool.not_eq_true] at hdup
      simp [record_if_new, hdup]

theorem payment_event_log_unique_witness :
    dedupInv ((deliverAll noProvider [evOrphan, evOrphan] ⟨[], [], []⟩).events)
    ∧ (record_if_new [] "stripe" "evt_1" "p1" "t").2 = true :=
  ⟨(payment_event_log_unique noProvider [evOrphan, evOrphan] ⟨[], [], []⟩
      List.Pairwise.nil).1,
   ((payment_event_log_unique noProvider [] ⟨[], [], []⟩ List.Pairwise.nil).2.1
      [] "stripe" "evt_1" "p1" "t").mpr rfl⟩

/-! ### C4 — webhook deduplication -/

/-- A delivery whose `(provider, event id)` pair is already in the log
(and which passes the shape and tenant checks that precede the dedup
gate) short-circuits with the deduped acknowledgment and leaves the
whole store untouched. -/
theorem webhook_deduped_of_recorded (prov : Provider) (ev : WhEvent) (st : WhState)
    (pid : String)
    (hshape : ¬(ev.id = "" ∨ ev.eventType = ""))
    (htenant : resolveProjectId prov ev = some pid)
    (hdup : st.events.any (fun e => e.provider == "stripe" && e.eventId == ev.id) = true) :
    webhookStep prov ev st = (st, .deduped) := by
  simp [webhookStep, hshape, htenant, record_if_new, hdup]

theorem countMutations_zero_of_recorded (prov : Provider) (ev : WhEvent) (pid : String)
    (hshape : ¬(ev.id = "" ∨ ev.eventType = ""))
    (htenant : resolveProjectId prov ev = some pid) :
    ∀ n (st : WhState),
      st.events.any (fun e => e.provider == "stripe" && e.eventId == ev.id) = true →
      countMutations prov ev n st = 0
  | 0, _, _ => rfl
  | n + 1, st, hdup => by
    have hstep := webhook_deduped_of_recorded prov ev st pid hshape htenant hdup
    simp [countMutations, hstep,
      countMutations_zero_of_recorded prov ev pid hshape htenant n st hdup]

/-- C4 (amended): a delivery whose `(provider, event id)` pair already
appears in the PaymentEvent log short-circuits with
`{ok: true, deduped: true}` and performs no further mutation of the
Local Mirror Store.  Among repeated deliveries of an event whose
handler branch commits, exactly one (the first) mutates the store and
every later one is deduplicated; an event whose branch does not reach
its commit leaves no dedup record and is re-processed on redelivery. -/
theorem webhook_dedup_exactly_one_mutation (prov : Provider) (ev : WhEvent)
    (st : WhState) (pid : String) (subs1 : List SubRow) (inv1 : List InvoiceRow)
    (hshape : ¬(ev.id = "" ∨ ev.eventType = ""))
    (htenant : resolveProjectId prov ev = some pid)
    (hnew : st.events.any (fun e => e.provider == "stripe" && e.eventId == ev.id) = false)
    (hcommit : applyEvent prov ev pid st.subs st.invoices = .committed subs1 inv1) :
    (∀ st' : WhState,
      st'.events.any (fun e => e.provider == "stripe" && e.eventId == ev.id) = true →
      webhookStep prov ev st' = (st', .deduped))
    ∧ (∀ n, countMutations prov ev (n + 1) st = 1) := by
  have hstep : webhookStep prov ev st =
      (WhState.mk (st.events ++ [EventRow.mk pid "stripe" ev.eventType ev.id]) subs1 inv1,
       .ack ev.eventType) := by
    simp [webhookStep, hshape, htenant, record_if_new, hnew, hcommit]
  refine ⟨fun st' hdup => webhook_deduped_of_recorded prov ev st' pid hshape htenant hdup,
    fun n => ?_⟩
  have hne : WhState.mk (st.events ++ [EventRow.mk pid "stripe" ev.eventType ev.id])
      subs1 inv1 ≠ st := by
    intro heq
    have := congrArg (fun s : WhState => s.events.length) heq
    simp at this
  have hrec : (st.events ++ [EventRow.mk pid "stripe" ev.eventType ev.id]).any
      (fun e => e.provider == "stripe" && e.eventId == ev.id) = true := by
    rw [List.any_append]
    simp
  simp only [countMutations, hstep]
  rw [if_neg hne, countMutations_zero_of_recorded prov ev pid hshape htenant n _ hrec]

def evUpdateObj : WhObj :=
  { emptyWhObj with
    id := some "sub_x"
    metadata := [("project_id", "p1")]
    status := some "past_due"
    cancelAtPeriodEnd := some false }

def evUpdate : WhEvent := ⟨"evt_1", "customer.subscription.updated", evUpdateObj⟩

def mirrorState : WhState := ⟨[], [rowActive], []⟩

theorem webhook_dedup_exactly_one_mutation_witness :
    countMutations noProvider evUpdate 4 mirrorState = 1
    ∧ webhookStep noProvider evUpdate (webhookStep noProvider evUpdate mirrorState).1
      = ((webhookStep noProvider evUpdate mirrorState).1, .deduped) := by
  have h := webhook_dedup_exactly_one_mutation noProvider evUpdate mirrorState "p1"
    (replaceRow [rowActive] "s1" (update_from_stripe rowActive (some "past_due")
      none none none (some false) none)) []
    (by decide) rfl rfl (by decide)
  exact ⟨h.2 3, h.1 _ (by decide)⟩

def evOther : WhEvent :=
  ⟨"evt_9", "payment_intent.created", { emptyWhObj with metadata := [("project_id", "p1")] }⟩

/-- C4 counterexample: an event of a type whose handler branch never
reaches `db.commit()` is acknowledged while its flushed dedup record
is rolled back, so its redelivery is processed again (`ok`, not
`deduped`) and zero — not exactly one — deliveries produce a
committed mirror mutation. -/
theorem webhook_dedup_counterexample :
    webhookStep noProvider evOther ⟨[], [], []⟩
      = (⟨[], [], []⟩, .ack "payment_intent.created")
    ∧ ¬ (webhookStep noProvider evOther
          (webhookStep noProvider evOther ⟨[], [], []⟩).1).2 = WhOutcome.deduped
    ∧ countMutations noProvider evOther 2 ⟨[], [], []⟩ = 0 := by
  exact ⟨rfl, by decide, rfl⟩

/-! ### C7 — order-independent content hash -/

/-- C7: two request payloads that denote the same JSON value but are
serialized with different key order (i.e. share a canonical form)
receive the same content hash from `_stable_request_hash`, because the
hash is computed over the sorted-key compact JSON serialization of the
normalized request body. -/
theorem stable_request_hash_key_order_independent
    (sha256 : String → String) (a b : Json) (hdenote : canon a = canon b) :
    stableRequestHash sha256 a = stableRequestHash sha256 b := by
  unfold stableRequestHash
  rw [← dumps_canon a, ← dumps_canon b, hdenote]

theorem stable_request_hash_key_order_independent_witness :
    canon (.obj (.cons "planCode" (.str "BASIC") (.cons "accountId" (.str "A1") .nil)))
      = canon (.obj (.cons "accountId" (.str "A1") (.cons "planCode" (.str "BASIC") .nil)))
    ∧ stableRequestHash (fun s => s)
        (.obj (.cons "planCode" (.str "BASIC") (.cons "accountId" (.str "A1") .nil)))
      = stableRequestHash (fun s => s)
        (.obj (.cons "accountId" (.str "A1") (.cons "planCode" (.str "BASIC") .nil))) :=
  ⟨by decide, stable_request_hash_key_order_independent (fun s => s) _ _ (by decide)⟩

/-! ### C10 — middleware persistence and replay -/

/-- C10: for a non-exempt POST/PUT/PATCH request carrying both the
idempotency-key and project headers, the middleware persists any
application response with status < 500 — 4xx client errors included —
under `(project, key)`; and every later non-exempt mutating request
carrying the same `(project, key)`, whatever its body, whatever the
application would now return and whatever the stored status, is
answered with the stored response without invoking the application. -/
theorem middleware_caches_and_replays
    (sha256 : String → String) (app : MwRequest → StoredResponse)
    (table : List MwRow) (req : MwRequest) (k p : String)
    (hmethod : req.method = "POST" ∨ req.method = "PUT" ∨ req.method = "PATCH")
    (hpath : EXEMPT_PATHS.any (fun q => startsWithB req.path q) = false)
    (hk : req.idemKey = some k) (hp : req.projectId = some p)
    (hk0 : ¬ k = "") (hp0 : ¬ p = "")
    (hnew : table.find? (fun r => r.projectId == p && r.key == k) = none)
    (hok : (app req).status < 500) :
    middlewareStep sha256 app table req
      = (table ++ [MwRow.mk p k (sha256 req.body) (app req)], app req, true)
    ∧ (∀ (sha2 : String → String) (app2 : MwRequest → StoredResponse)
        (table2 : List MwRow) (req2 : MwRequest) (row2 : MwRow),
        (req2.method = "POST" ∨ req2.method = "PUT" ∨ req2.method = "PATCH") →
        EXEMPT_PATHS.any (fun q => startsWithB req2.path q) = false →
        req2.idemKey = some k → req2.projectId = some p →
        table2.find? (fun r => r.projectId == p && r.key == k) = some row2 →
        middlewareStep sha2 app2 table2 req2 = (table2, row2.resp, false))
    ∧ (table ++ [MwRow.mk p k (sha256 req.body) (app req)]).find?
        (fun r => r.projectId == p && r.key == k)
      = some (MwRow.mk p k (sha256 req.body) (app req)) := by
  have hany : table.any (fun r => r.projectId == p && r.key == k) = false := by
    rw [List.find?_eq_none] at hnew
    rw [List.any_eq_false]
    intro r hr
    simpa using hnew r hr
  have hnotopt : ¬ req.method = "OPTIONS" := by
    rcases hmethod with h | h | h <;> simp [h]
  refine ⟨?_, ?_, ?_⟩
  · have hnotget : ¬ ¬ (req.method = "POST" ∨ req.method = "PUT" ∨ req.method = "PATCH") :=
      not_not_intro hmethod
    simp [middlewareStep, hnotopt, hpath, hnotget, hk, hp, hk0, hp0, hnew, hok, hany]
  · intro sha2 app2 table2 req2 row2 hm2 hpath2 hk2 hp2 hfound
    have hnotopt2 : ¬ req2.method = "OPTIONS" := by
      rcases hm2 with h | h | h <;> simp [h]
    have hnotget2 : ¬ ¬ (req2.method = "POST" ∨ req2.method = "PUT" ∨ req2.method = "PATCH") :=
      not_not_intro hm2
    simp [middlewareStep, hnotopt2, hpath2, hnotget2, hk2, hp2, hk0, hp0, hfound]
  · rw [List.find?_append, hnew]
    simp

def reqPost : MwRequest :=
  ⟨"POST", "/subscriptions", some "k1", some "p1", "\x7b\"planCode\":\"BASIC\"\x7d"⟩

def reqPostOtherBody : MwRequest :=
  ⟨"POST", "/subscriptions", some "k1", some "p1", "\x7b\"planCode\":\"PRO\"\x7d"⟩

/-- An application that answers 404 — a client error below 500. -/
def app404 : MwRequest → StoredResponse :=
  fun _ => ⟨404, [("content-type", "application/json")], "\x7b\"detail\":\"not found\"\x7d"⟩

theorem middleware_caches_and_replays_witness :
    middlewareStep (fun s => s) app404 [] reqPost
      = ([MwRow.mk "p1" "k1" reqPost.body (app404 reqPost)], app404 reqPost, true)
    ∧ middlewareStep (fun s => s) app404
        [MwRow.mk "p1" "k1" reqPost.body (app404 reqPost)] reqPostOtherBody
      = ([MwRow.mk "p1" "k1" reqPost.body (app404 reqPost)], app404 reqPost, false) := by
  have h := middleware_caches_and_replays (fun s => s) app404 [] reqPost "k1" "p1"
    (Or.inl rfl) (by decide) rfl rfl (by decide) (by decide) rfl (by decide)
  exact ⟨h.1, h.2.1 (fun s => s) app404 _ reqPostOtherBody _ (Or.inl rfl) (by decide)
    rfl rfl h.2.2⟩

end Billing
